import Mathlib

/-!
Shallow embedding of `backend/app/core/resilience.py` (and the
`RateLimitError` constructor from `backend/app/core/errors.py`).

Modelling conventions:
* Python `float` time stamps, latencies and token counts are modelled as `ℚ`.
* Python `int` fields are modelled as `ℤ`; Python `int(x)` truncation toward
  zero is `pyInt`.
* Wall-clock reads (`time.time()`) become an explicit `now : ℚ` argument.
* Mutation becomes explicit state passing: a method that mutates `self`
  returns the updated value alongside its result.
* The only operation in scope that can raise inside these classes is the
  float division in `TokenBucket.wait_time` (ZeroDivisionError when
  `refill_rate == 0`); it is modelled with `Except`.
-/

set_option maxRecDepth 8000

namespace Resilience

/-- Python `int(x)` for a rational: truncation toward zero. -/
def pyInt (q : ℚ) : ℤ := if 0 ≤ q then ⌊q⌋ else -⌊-q⌋

/-- Insert into an ascending list, keeping earlier elements first on ties. -/
def insertAsc (x : ℚ) : List ℚ → List ℚ
  | [] => [x]
  | y :: ys => if x ≤ y then x :: y :: ys else y :: insertAsc x ys

/-- Python `sorted(xs)`: stable ascending sort (insertion sort computes the
same list as any stable sort on the total order of `ℚ`). -/
def pySorted : List ℚ → List ℚ
  | [] => []
  | x :: xs => insertAsc x (pySorted xs)

/-- `METRICS_WINDOW_SECONDS = 300`. -/
def METRICS_WINDOW_SECONDS : ℚ := 300

/-- Python exceptions that the modelled code can raise. -/
inductive PyError where
  | zeroDivisionError : PyError
  | rateLimitError (source : String) (retry_after : ℤ) : PyError
deriving DecidableEq, Repr

instance {E T : Type} [DecidableEq E] [DecidableEq T] :
    DecidableEq (Except E T) := fun a b =>
  match a, b with
  | .ok x, .ok y =>
    if h : x = y then .isTrue (by rw [h]) else .isFalse (by simp [h])
  | .error e, .error f =>
    if h : e = f then .isTrue (by rw [h]) else .isFalse (by simp [h])
  | .ok _, .error _ => .isFalse (by simp)
  | .error _, .ok _ => .isFalse (by simp)

/-- `TokenBucket` dataclass: capacity, refill rate (tokens/second), current
tokens, time of last refill. -/
structure TokenBucket where
  capacity : ℚ
  refill_rate : ℚ
  tokens : ℚ
  last_refill : ℚ
deriving DecidableEq, Repr

/-- Construction followed by `__post_init__`, which sets `tokens = capacity`
(the dataclass default for `last_refill` is `time.time()`, here `now`). -/
def TokenBucket.make (capacity refill_rate now : ℚ) : TokenBucket :=
  { capacity := capacity, refill_rate := refill_rate,
    tokens := capacity, last_refill := now }

/-- `TokenBucket._refill`: add `elapsed * refill_rate` tokens, clamped at
`capacity`; stamp `last_refill`. -/
def TokenBucket.refill (b : TokenBucket) (now : ℚ) : TokenBucket :=
  { b with tokens := min b.capacity (b.tokens + (now - b.last_refill) * b.refill_rate),
           last_refill := now }

/-- `TokenBucket.acquire(tokens=1)`: refill, then decrement if enough tokens;
returns the success flag and the updated bucket. -/
def TokenBucket.acquire (b : TokenBucket) (now : ℚ) (tokens : ℚ := 1) :
    Bool × TokenBucket :=
  let b := b.refill now
  if tokens ≤ b.tokens then (true, { b with tokens := b.tokens - tokens })
  else (false, b)

/-- `TokenBucket.wait_time(tokens=1)`: refill, return 0 if enough tokens,
else `needed / refill_rate` — a Python float division that raises
`ZeroDivisionError` when `refill_rate == 0`. -/
def TokenBucket.wait_time (b : TokenBucket) (now : ℚ) (tokens : ℚ := 1) :
    Except PyError (ℚ × TokenBucket) :=
  let b := b.refill now
  if tokens ≤ b.tokens then .ok (0, b)
  else if b.refill_rate = 0 then .error .zeroDivisionError
  else .ok ((tokens - b.tokens) / b.refill_rate, b)

/-- `RateLimiter`: per-source token buckets (a Python dict, modelled as an
association list whose keys are unique because `register` replaces). -/
structure RateLimiter where
  buckets : List (String × TokenBucket)
deriving DecidableEq, Repr

/-- Association-list lookup standing for Python dict access. -/
def lookupAssoc {α : Type} (l : List (String × α)) (s : String) : Option α :=
  (l.find? (fun p => p.1 = s)).map (·.2)

/-- Replace the value bound to `s` (dict item assignment on an existing key),
or append a fresh binding. -/
def setAssoc {α : Type} (l : List (String × α)) (s : String) (v : α) :
    List (String × α) :=
  if (l.find? (fun p => p.1 = s)).isSome then
    l.map (fun p => if p.1 = s then (s, v) else p)
  else l ++ [(s, v)]

/-- `RateLimiter.register(source, requests_per_minute)`. -/
def RateLimiter.register (rl : RateLimiter) (source : String)
    (requests_per_minute : ℚ) (now : ℚ) : RateLimiter :=
  ⟨setAssoc rl.buckets source
    (TokenBucket.make requests_per_minute (requests_per_minute / 60) now)⟩

/-- `RateLimiter.acquire(source)`: `True` for an unregistered source,
otherwise delegate to the bucket. -/
def RateLimiter.acquire (rl : RateLimiter) (source : String) (now : ℚ) :
    Bool × RateLimiter :=
  match lookupAssoc rl.buckets source with
  | none => (true, rl)
  | some b =>
    let res := b.acquire now 1
    (res.1, ⟨setAssoc rl.buckets source res.2⟩)

/-- `RateLimiter.wait_time(source)`: 0 for an unregistered source, otherwise
delegate (propagating a possible ZeroDivisionError). -/
def RateLimiter.wait_time (rl : RateLimiter) (source : String) (now : ℚ) :
    Except PyError (ℚ × RateLimiter) :=
  match lookupAssoc rl.buckets source with
  | none => .ok (0, rl)
  | some b =>
    match b.wait_time now 1 with
    | .error e => .error e
    | .ok (w, b') => .ok (w, ⟨setAssoc rl.buckets source b'⟩)

/-- `RateLimiter.acquire_or_wait(source, max_wait=30)`.  `sleepTo` is the
wall clock after the `asyncio.sleep(wait)` call (sleeping advances time; the
scheduler may add latency, so it is a parameter).  `RateLimitError(source,
retry_after=int(wait))` truncates `wait`; the bare `RateLimitError(source)`
uses the constructor default `retry_after=60` from `errors.py`. -/
def RateLimiter.acquire_or_wait (rl : RateLimiter) (source : String)
    (max_wait : ℚ) (now : ℚ) (sleepTo : ℚ) : Except PyError RateLimiter :=
  match rl.wait_time source now with
  | .error e => .error e
  | .ok (wait, rl) =>
    if max_wait < wait then .error (.rateLimitError source (pyInt wait))
    else
      let t := if 0 < wait then sleepTo else now
      let res := rl.acquire source t
      if res.1 then .ok res.2 else .error (.rateLimitError source 60)

/-- `CircuitState` enum with its `.value` strings. -/
inductive CircuitState where
  | CLOSED | OPEN | HALF_OPEN
deriving DecidableEq, Repr

/-- The `.value` attribute of the enum member. -/
def CircuitState.value : CircuitState → String
  | .CLOSED => "closed"
  | .OPEN => "open"
  | .HALF_OPEN => "half_open"

/-- `CircuitBreaker` dataclass. -/
structure CircuitBreaker where
  failure_threshold : ℤ := 5
  recovery_timeout : ℚ := 30
  half_open_max_calls : ℤ := 3
  state : CircuitState := .CLOSED
  failure_count : ℤ := 0
  last_failure_time : ℚ := 0
  half_open_calls : ℤ := 0
deriving DecidableEq, Repr

/-- `CircuitBreaker.is_available()`: returns the answer and the (possibly
mutated) breaker — the OPEN branch transitions to HALF_OPEN once the
recovery timeout has elapsed. -/
def CircuitBreaker.is_available (cb : CircuitBreaker) (now : ℚ) :
    Bool × CircuitBreaker :=
  match cb.state with
  | .CLOSED => (true, cb)
  | .OPEN =>
    if cb.recovery_timeout ≤ now - cb.last_failure_time then
      (true, { cb with state := .HALF_OPEN, half_open_calls := 0 })
    else (false, cb)
  | .HALF_OPEN => (decide (cb.half_open_calls < cb.half_open_max_calls), cb)

/-- `CircuitBreaker.record_success()`. -/
def CircuitBreaker.record_success (cb : CircuitBreaker) : CircuitBreaker :=
  match cb.state with
  | .HALF_OPEN =>
    let cb := { cb with half_open_calls := cb.half_open_calls + 1 }
    if cb.half_open_max_calls ≤ cb.half_open_calls then
      { cb with state := .CLOSED, failure_count := 0 }
    else cb
  | .CLOSED => { cb with failure_count := 0 }
  | .OPEN => cb

/-- `CircuitBreaker.record_failure()`. -/
def CircuitBreaker.record_failure (cb : CircuitBreaker) (now : ℚ) :
    CircuitBreaker :=
  let cb := { cb with failure_count := cb.failure_count + 1,
                      last_failure_time := now }
  if cb.state = .HALF_OPEN then { cb with state := .OPEN }
  else if cb.failure_threshold ≤ cb.failure_count then
    { cb with state := .OPEN }
  else cb

/-! ### `retry_with_backoff` -/

/-- One run of the `for attempt in range(max_retries + 1)` loop body chain of
`retry_with_backoff`, starting at index `attempt` with `remaining` further
indices allowed.  `fn i` is the outcome of the `i`-th invocation of the
wrapped coroutine.  Returns how many times `fn` was invoked and the final
outcome (`.error e` models `raise last_error` where `e` is the error of the
last attempt; sleeping between attempts does not affect the outcome and is
elided). -/
def retryAux {E T : Type} (fn : ℕ → Except E T) (attempt : ℕ) :
    ℕ → ℕ × Except E T
  | 0 => (1, fn attempt)
  | r + 1 =>
    match fn attempt with
    | .ok v => (1, .ok v)
    | .error _ =>
      let p := retryAux fn (attempt + 1) r
      (p.1 + 1, p.2)

/-- `retry_with_backoff(fn, max_retries, ...)`: attempts `fn` at indices
`0, 1, ..., max_retries`, stopping at the first success; on exhaustion the
error of the last attempt is raised unchanged. -/
def retry_with_backoff {E T : Type} (fn : ℕ → Except E T) (max_retries : ℕ) :
    ℕ × Except E T :=
  retryAux fn 0 max_retries

/-- The delay slept after the failure of attempt index `attempt`
(`0`-based, so the `k`-th retry delay has `attempt = k - 1`):
`delay = min(base_delay * 2**attempt, max_delay)` then
`delay = delay * (1 + random.uniform(-jitter, jitter))`, with `u` standing
for the drawn uniform sample. -/
def backoff_delay (base_delay max_delay jitter u : ℚ) (attempt : ℕ) : ℚ :=
  let _ := jitter
  min (base_delay * 2 ^ attempt) max_delay * (1 + u)

/-! ### `SourceMetrics` -/

/-- `RequestRecord` dataclass. -/
structure RequestRecord where
  timestamp : ℚ
  latency_ms : ℚ
  success : Bool
deriving DecidableEq, Repr

/-- `deque(maxlen=n)` append: drop from the left when full. -/
def dequeAppend {α : Type} (maxlen : ℕ) (xs : List α) (x : α) : List α :=
  let ys := xs ++ [x]
  ys.drop (ys.length - maxlen)

/-- Python `round(q, 2)` for an exact rational: round `q * 100` half to even,
divide back.  (The source applies it to floats; every value the claims
evaluate is exact.) -/
def pyRound2 (q : ℚ) : ℚ :=
  let f : ℤ := ⌊q * 100⌋
  let r : ℚ := q * 100 - f
  let n : ℤ :=
    if r < 1 / 2 then f
    else if 1 / 2 < r then f + 1
    else if f % 2 = 0 then f else f + 1
  (n : ℚ) / 100

/-- `SourceMetrics` dataclass; `requests` is a `deque(maxlen=1000)`. -/
structure SourceMetrics where
  source : String
  circuit_breaker : CircuitBreaker := {}
  requests : List RequestRecord := []
  enabled : Bool := true
deriving DecidableEq, Repr

/-- `SourceMetrics.record_request(latency_ms, success)`. -/
def SourceMetrics.record_request (m : SourceMetrics) (now latency_ms : ℚ)
    (success : Bool) : SourceMetrics :=
  let r0 : RequestRecord :=
    { timestamp := now, latency_ms := latency_ms, success := success }
  let m := { m with requests := dequeAppend 1000 m.requests r0 }
  if success then { m with circuit_breaker := m.circuit_breaker.record_success }
  else { m with circuit_breaker := m.circuit_breaker.record_failure now }

/-- `SourceMetrics._prune_old_records()`: records with
`timestamp >= time.time() - METRICS_WINDOW_SECONDS`. -/
def SourceMetrics.prune_old_records (m : SourceMetrics) (now : ℚ) :
    List RequestRecord :=
  m.requests.filter (fun r => decide (now - METRICS_WINDOW_SECONDS ≤ r.timestamp))

/-- The dict returned by `SourceMetrics.get_stats()`. -/
structure Stats where
  source : String
  enabled : Bool
  circuit_state : String
  is_available : Bool
  requests_last_5m : ℕ
  failures_last_5m : ℕ
  failure_rate : ℚ
  p95_latency_ms : ℚ
deriving DecidableEq, Repr

/-- The p95 selection of `get_stats`: ascending sort of the successful
latencies, `idx = int(len(latencies) * 0.95)` (float truncation; for the
sizes evaluated here — n = 0 and n = 100 — the double product is exact, so
the rational floor coincides), clamped to the last index; `0.0` if empty. -/
def p95Select (latencies : List ℚ) : ℚ :=
  if latencies.isEmpty then 0
  else
    let idx := (pyInt ((latencies.length : ℚ) * (19 / 20))).toNat
    latencies.getD (min idx (latencies.length - 1)) 0

/-- `SourceMetrics.get_stats()`: the returned dict and the metrics after the
call (the `"is_available"` entry calls `circuit_breaker.is_available()`,
which can mutate the breaker; the `"circuit_state"` entry is evaluated
earlier, from the pre-call state). -/
def SourceMetrics.get_stats (m : SourceMetrics) (now : ℚ) :
    Stats × SourceMetrics :=
  let records := m.prune_old_records now
  let total := records.length
  let failures := (records.filter (fun r => !r.success)).length
  let latencies :=
    pySorted ((records.filter (fun r => r.success)).map (·.latency_ms))
  let p95_latency := p95Select latencies
  let res := m.circuit_breaker.is_available now
  ({ source := m.source
     enabled := m.enabled
     circuit_state := m.circuit_breaker.state.value
     is_available := res.1
     requests_last_5m := total
     failures_last_5m := failures
     failure_rate := if 0 < total then (failures : ℚ) / (total : ℚ) * 100 else 0
     p95_latency_ms := pyRound2 p95_latency },
   { m with circuit_breaker := res.2 })

/-! ### `SourceRegistry` -/

/-- `SourceRegistry`: a dict of `SourceMetrics`, modelled as an association
list with unique keys (see `setAssoc`). -/
structure SourceRegistry where
  sources : List (String × SourceMetrics)
deriving DecidableEq, Repr

/-- `SourceRegistry.register(source, enabled=True, failure_threshold=5,
recovery_timeout=30.0)`. -/
def SourceRegistry.register (r : SourceRegistry) (source : String)
    (enabled : Bool := true) (failure_threshold : ℤ := 5)
    (recovery_timeout : ℚ := 30) : SourceRegistry :=
  ⟨setAssoc r.sources source
    { source := source
      circuit_breaker := { failure_threshold := failure_threshold,
                           recovery_timeout := recovery_timeout }
      enabled := enabled }⟩

/-- `SourceRegistry.is_available(source)`: `True` for an unknown source;
otherwise `metrics.enabled and metrics.circuit_breaker.is_available()`
(short-circuit: the breaker is not consulted — nor mutated — when the
source is disabled). -/
def SourceRegistry.is_available (r : SourceRegistry) (source : String)
    (now : ℚ) : Bool × SourceRegistry :=
  match lookupAssoc r.sources source with
  | none => (true, r)
  | some m =>
    if m.enabled then
      let res := m.circuit_breaker.is_available now
      (res.1, ⟨setAssoc r.sources source { m with circuit_breaker := res.2 }⟩)
    else (false, r)

/-- `SourceRegistry.record_request(source, latency_ms, success)`: no-op for
an unknown source. -/
def SourceRegistry.record_request (r : SourceRegistry) (source : String)
    (now latency_ms : ℚ) (success : Bool) : SourceRegistry :=
  match lookupAssoc r.sources source with
  | none => r
  | some m =>
    ⟨setAssoc r.sources source (m.record_request now latency_ms success)⟩

/-- `SourceRegistry.get_all_stats()`: `get_stats` on every registered source
(each call may mutate that source's breaker). -/
def SourceRegistry.get_all_stats (r : SourceRegistry) (now : ℚ) :
    List Stats × SourceRegistry :=
  let pairs := r.sources.map (fun p => (p.1, p.2.get_stats now))
  (pairs.map (·.2.1), ⟨pairs.map (fun p => (p.1, p.2.2))⟩)

/-- The dict returned by `SourceRegistry.get_health_summary()`. -/
structure HealthSummary where
  status : String
  sources : List Stats
  degraded_sources : List String
deriving DecidableEq, Repr

/-- `SourceRegistry.get_health_summary()`. -/
def SourceRegistry.get_health_summary (r : SourceRegistry) (now : ℚ) :
    HealthSummary × SourceRegistry :=
  let res := r.get_all_stats now
  let degraded := res.1.filter
    (fun s => !(s.circuit_state == "closed") || !s.enabled)
  ({ status := if degraded.isEmpty then "healthy" else "degraded"
     sources := res.1
     degraded_sources := degraded.map (·.source) }, res.2)

/-! ### Concrete inputs used by witnesses and counterexamples -/

/-- One step of repeated `acquire(1)` on a bucket: keep the updated bucket. -/
def acquireStep (now : ℚ) (b : TokenBucket) : TokenBucket := (b.acquire now 1).2

/-- 100 successful records, latencies 1..100 ms, all inside the window. -/
def m100 : SourceMetrics :=
  { source := "s"
    requests := (List.range 100).map (fun i => ⟨1000, (i : ℚ) + 1, true⟩) }

/-- Metrics with no records at all. -/
def mEmpty : SourceMetrics := { source := "e" }

/-- A limiter whose one source allows `240/181` requests per minute... -/
def rlC2 : RateLimiter := (RateLimiter.mk []).register "s" (240 / 181) 0

/-- ...after one successful acquire its bucket holds `59/181` tokens, so the
next token is `30.5` seconds away. -/
def rlC2b : RateLimiter := (rlC2.acquire "s" 0).2

/-- A fresh breaker with `failure_threshold = 3`. -/
def cbC3 : CircuitBreaker :=
  { failure_threshold := 3, recovery_timeout := 30, half_open_max_calls := 3,
    state := .CLOSED, failure_count := 0, last_failure_time := 0,
    half_open_calls := 0 }

/-- An OPEN breaker that failed at time 0. -/
def cbC4 : CircuitBreaker :=
  { failure_threshold := 3, recovery_timeout := 30, half_open_max_calls := 3,
    state := .OPEN, failure_count := 3, last_failure_time := 0,
    half_open_calls := 0 }

/-- Metrics wrapping an OPEN breaker that failed at time 0. -/
def mC10 : SourceMetrics := { source := "s", circuit_breaker := cbC4 }

end Resilience

namespace Resilience

/-! ### Helper lemmas -/

theorem get_stats_fst_circuit_state (m : SourceMetrics) (now : ℚ) :
    (m.get_stats now).1.circuit_state = m.circuit_breaker.state.value := rfl

theorem get_stats_snd_breaker (m : SourceMetrics) (now : ℚ) :
    (m.get_stats now).2.circuit_breaker =
      (m.circuit_breaker.is_available now).2 := rfl

theorem get_stats_fst_p95 (m : SourceMetrics) (now : ℚ) :
    (m.get_stats now).1.p95_latency_ms =
      pyRound2 (p95Select (pySorted
        (((m.prune_old_records now).filter (fun r => r.success)).map
          (·.latency_ms)))) := rfl

/-! ### C1 -/

/-- C1, corrected: for 100 successful in-window records with latencies
1..100 ms, `get_stats` reports `p95_latency_ms = 96` — the entry at
zero-based floor index `int(100 * 0.95) = 95` of the ascending sort, which
is the 96th value, not 95 ms — still floor-index selection, not an
interpolated percentile; and `p95_latency_ms = 0` when there are no
successful records in the window. -/
theorem C1_p95_selection :
    (m100.get_stats 1000).1.p95_latency_ms = 96 ∧
    ∀ (m : SourceMetrics) (now : ℚ),
      (m.prune_old_records now).filter (fun r => r.success) = [] →
      (m.get_stats now).1.p95_latency_ms = 0 := by
  constructor
  · with_unfolding_all decide
  · intro m now h
    rw [get_stats_fst_p95, h]
    with_unfolding_all decide

/-- C1 witness: metrics with no records report a p95 of 0. -/
theorem C1_witness : (mEmpty.get_stats 0).1.p95_latency_ms = 0 :=
  C1_p95_selection.2 mEmpty 0 (by with_unfolding_all decide)

/-- C1 counterexample: on the claimed input the reported p95 is 96 ms,
not the claimed 95 ms. -/
theorem C1_counterexample :
    (m100.get_stats 1000).1.p95_latency_ms = 96 ∧ (96 : ℚ) ≠ 95 :=
  ⟨by with_unfolding_all decide, by norm_num⟩

/-! ### C2 -/

/-- C2, corrected: whenever `acquire_or_wait`'s computed wait exceeds
`max_wait`, it raises `RateLimitError` immediately, but the suggested
retry-after is `int(wait)` — the wait truncated toward zero — not the wait
rounded up to the next whole second. -/
theorem C2_rate_limit_error_truncates
    (rl rl' : RateLimiter) (source : String) (max_wait now sleepTo wait : ℚ)
    (hw : rl.wait_time source now = .ok (wait, rl'))
    (hgt : max_wait < wait) :
    rl.acquire_or_wait source max_wait now sleepTo =
      .error (.rateLimitError source (pyInt wait)) := by
  unfold RateLimiter.acquire_or_wait
  rw [hw]
  simp only [if_pos hgt]

/-- C2 witness: a source allowing 240/181 requests per minute, one token
spent; the computed wait is 30.5 s > 30 s, and the raised error carries
`retry_after = 30`. -/
theorem C2_witness :
    rlC2b.acquire_or_wait "s" 30 0 0 =
      .error (.rateLimitError "s" (pyInt (61 / 2))) :=
  C2_rate_limit_error_truncates rlC2b rlC2b "s" 30 0 0 (61 / 2)
    (by with_unfolding_all decide) (by norm_num)

/-- C2 counterexample: in the same situation the computed wait is `61/2`;
the claim says the error carries `⌈61/2⌉ = 31`, but the code carries
`int(61/2) = 30`. -/
theorem C2_counterexample :
    rlC2b.wait_time "s" 0 = .ok (61 / 2, rlC2b) ∧
    rlC2b.acquire_or_wait "s" 30 0 0 = .error (.rateLimitError "s" 30) ∧
    ⌈(61 / 2 : ℚ)⌉ = 31 ∧ (30 : ℤ) ≠ 31 := by
  refine ⟨by with_unfolding_all decide, by with_unfolding_all decide,
    by with_unfolding_all decide, by decide⟩

/-! ### C3 -/

/-- C3, confirmed: with `failure_threshold = 3`, from CLOSED with
`failure_count = 0`, the breaker is still CLOSED after the 1st and 2nd
`record_failure`, OPEN after the 3rd, and `is_available` answers false
while less than `recovery_timeout` has elapsed since the 3rd failure. -/
theorem C3_breaker_opens_at_threshold (cb : CircuitBreaker)
    (t1 t2 t3 now : ℚ)
    (hth : cb.failure_threshold = 3) (hst : cb.state = .CLOSED)
    (hfc : cb.failure_count = 0) (_hrt : 0 < cb.recovery_timeout)
    (hnow : now - t3 < cb.recovery_timeout) :
    (cb.record_failure t1).state = .CLOSED ∧
    ((cb.record_failure t1).record_failure t2).state = .CLOSED ∧
    (((cb.record_failure t1).record_failure t2).record_failure t3).state
      = .OPEN ∧
    ((((cb.record_failure t1).record_failure t2).record_failure t3).is_available
      now).1 = false := by
  have h1 : cb.record_failure t1 =
      { cb with failure_count := 1, last_failure_time := t1 } := by
    unfold CircuitBreaker.record_failure
    dsimp only
    rw [hst, hfc, hth]
    rw [if_neg (by decide), if_neg (by norm_num)]
    norm_num
  have h2 : (cb.record_failure t1).record_failure t2 =
      { cb with failure_count := 2, last_failure_time := t2 } := by
    rw [h1]
    unfold CircuitBreaker.record_failure
    dsimp only
    rw [hst, hth]
    rw [if_neg (by decide), if_neg (by norm_num)]
    norm_num
  have h3 : ((cb.record_failure t1).record_failure t2).record_failure t3 =
      { cb with failure_count := 3, last_failure_time := t3,
                state := .OPEN } := by
    rw [h2]
    unfold CircuitBreaker.record_failure
    dsimp only
    rw [hst, hth]
    rw [if_neg (by decide), if_pos (by norm_num)]
    norm_num
  refine ⟨by rw [h1]; exact hst, by rw [h2]; exact hst, by rw [h3], ?_⟩
  rw [h3]
  unfold CircuitBreaker.is_available
  dsimp only
  rw [if_neg (by linarith)]

/-- C3 witness: a fresh threshold-3 breaker, failures at times 1, 2, 3,
queried at time 4 (recovery timeout 30 not yet elapsed). -/
theorem C3_witness :
    (((cbC3.record_failure 1).record_failure 2).record_failure 3).state
      = .OPEN ∧
    ((((cbC3.record_failure 1).record_failure 2).record_failure 3).is_available
      4).1 = false :=
  ⟨(C3_breaker_opens_at_threshold cbC3 1 2 3 4 rfl rfl rfl
      (by with_unfolding_all decide) (by with_unfolding_all decide)).2.2.1,
   (C3_breaker_opens_at_threshold cbC3 1 2 3 4 rfl rfl rfl
      (by with_unfolding_all decide) (by with_unfolding_all decide)).2.2.2⟩

/-! ### C4 -/

theorem record_success_iterate_closes :
    ∀ (k : ℕ) (cb : CircuitBreaker), 1 ≤ k → cb.state = .HALF_OPEN →
      cb.half_open_calls + (k : ℤ) = cb.half_open_max_calls →
      ((CircuitBreaker.record_success)^[k] cb).state = .CLOSED ∧
      ((CircuitBreaker.record_success)^[k] cb).failure_count = 0 := by
  intro k
  induction k with
  | zero => intro cb h0 _ _; exact absurd h0 (by norm_num)
  | succ j ih =>
    intro cb _ hst hrem
    rw [Function.iterate_succ_apply]
    have hstep : CircuitBreaker.record_success cb =
        if cb.half_open_max_calls ≤ cb.half_open_calls + 1 then
          { cb with half_open_calls := cb.half_open_calls + 1,
                    state := .CLOSED, failure_count := 0 }
        else { cb with half_open_calls := cb.half_open_calls + 1 } := by
      unfold CircuitBreaker.record_success
      rw [hst]
    by_cases hj : j = 0
    · subst hj
      rw [Function.iterate_zero_apply, hstep,
        if_pos (by push_cast at hrem; omega)]
      exact ⟨rfl, rfl⟩
    · have hj1 : 1 ≤ j := Nat.one_le_iff_ne_zero.mpr hj
      rw [hstep, if_neg (by push_cast at hrem; omega)]
      refine ih _ hj1 hst ?_
      show cb.half_open_calls + 1 + (j : ℤ) = cb.half_open_max_calls
      push_cast at hrem
      omega

/-- C4, confirmed: an OPEN breaker whose recovery timeout has elapsed
transitions to HALF_OPEN with `half_open_calls = 0` on the next
`is_available` call and answers true; then `half_open_max_calls`
consecutive `record_success` calls close it with `failure_count = 0`. -/
theorem C4_half_open_recovery (cb : CircuitBreaker) (now : ℚ) (m : ℕ)
    (hst : cb.state = .OPEN)
    (htm : cb.recovery_timeout ≤ now - cb.last_failure_time)
    (hm : cb.half_open_max_calls = (m : ℤ)) (hm1 : 1 ≤ m) :
    (cb.is_available now).1 = true ∧
    (cb.is_available now).2.state = .HALF_OPEN ∧
    (cb.is_available now).2.half_open_calls = 0 ∧
    ((CircuitBreaker.record_success)^[m] (cb.is_available now).2).state
      = .CLOSED ∧
    ((CircuitBreaker.record_success)^[m] (cb.is_available now).2).failure_count
      = 0 := by
  have hav : cb.is_available now =
      (true, { cb with state := .HALF_OPEN, half_open_calls := 0 }) := by
    unfold CircuitBreaker.is_available
    rw [hst]
    rw [if_pos htm]
  have hiter := record_success_iterate_closes m
    { cb with state := .HALF_OPEN, half_open_calls := 0 } hm1 rfl
    (by show (0 : ℤ) + (m : ℤ) = cb.half_open_max_calls; omega)
  rw [hav]
  exact ⟨rfl, rfl, rfl, hiter.1, hiter.2⟩

/-- C4 witness: breaker OPEN since time 0, timeout 30, queried at time 30;
`half_open_max_calls = 3` successes close it. -/
theorem C4_witness :
    (cbC4.is_available 30).1 = true ∧
    ((CircuitBreaker.record_success)^[3] (cbC4.is_available 30).2).state
      = .CLOSED ∧
    ((CircuitBreaker.record_success)^[3] (cbC4.is_available 30).2).failure_count
      = 0 :=
  ⟨(C4_half_open_recovery cbC4 30 3 rfl (by with_unfolding_all decide)
      (by decide) (by norm_num)).1,
   (C4_half_open_recovery cbC4 30 3 rfl (by with_unfolding_all decide)
      (by decide) (by norm_num)).2.2.2.1,
   (C4_half_open_recovery cbC4 30 3 rfl (by with_unfolding_all decide)
      (by decide) (by norm_num)).2.2.2.2⟩

/-! ### C5 -/

theorem acquireStep_iterate (C : ℕ) (R now : ℚ) :
    ∀ k : ℕ, k ≤ C →
      (acquireStep now)^[k] (TokenBucket.make (C : ℚ) R now) =
        { capacity := (C : ℚ), refill_rate := R,
          tokens := (C : ℚ) - (k : ℚ), last_refill := now }
  | 0, _ => by
    rw [Function.iterate_zero_apply]
    unfold TokenBucket.make
    norm_num
  | k + 1, hk => by
    rw [Function.iterate_succ_apply',
      acquireStep_iterate C R now k (by omega)]
    unfold acquireStep TokenBucket.acquire TokenBucket.refill
    dsimp only
    have hmin : min ((C : ℚ)) ((C : ℚ) - (k : ℚ) + (now - now) * R)
        = (C : ℚ) - (k : ℚ) := by
      rw [show now - now = (0 : ℚ) by ring, zero_mul, add_zero]
      exact min_eq_right (sub_le_self _ (by positivity))
    rw [hmin]
    have hcond : (1 : ℚ) ≤ (C : ℚ) - (k : ℚ) := by
      have : ((k : ℚ)) + 1 ≤ (C : ℚ) := by exact_mod_cast hk
      linarith
    rw [if_pos hcond]
    have : (C : ℚ) - (k : ℚ) - 1 = (C : ℚ) - ((k + 1 : ℕ) : ℚ) := by
      push_cast; ring
    rw [this]

/-- C5, confirmed: a bucket of integer capacity `C ≥ 1` and rate `R > 0`
starts full; with no time elapsing, each of the first `C` `acquire(1)`
calls succeeds, the `(C+1)`-th fails, and the failing call deducts no
tokens. -/
theorem C5_token_bucket_saturation (C : ℕ) (R now : ℚ) (hC : 1 ≤ C)
    (_hR : 0 < R) :
    (∀ i : ℕ, i < C →
      (((acquireStep now)^[i] (TokenBucket.make (C : ℚ) R now)).acquire now 1).1
        = true) ∧
    (((acquireStep now)^[C] (TokenBucket.make (C : ℚ) R now)).acquire now 1).1
      = false ∧
    (((acquireStep now)^[C] (TokenBucket.make (C : ℚ) R now)).acquire now
      1).2.tokens
      = ((acquireStep now)^[C] (TokenBucket.make (C : ℚ) R now)).tokens := by
  refine ⟨?_, ?_, ?_⟩
  · intro i hi
    rw [acquireStep_iterate C R now i (le_of_lt hi)]
    unfold TokenBucket.acquire TokenBucket.refill
    dsimp only
    have hmin : min ((C : ℚ)) ((C : ℚ) - (i : ℚ) + (now - now) * R)
        = (C : ℚ) - (i : ℚ) := by
      rw [show now - now = (0 : ℚ) by ring, zero_mul, add_zero]
      exact min_eq_right (sub_le_self _ (by positivity))
    rw [hmin]
    have hcond : (1 : ℚ) ≤ (C : ℚ) - (i : ℚ) := by
      have : ((i : ℚ)) + 1 ≤ (C : ℚ) := by exact_mod_cast hi
      linarith
    rw [if_pos hcond]
  · rw [acquireStep_iterate C R now C le_rfl]
    unfold TokenBucket.acquire TokenBucket.refill
    dsimp only
    have hmin : min ((C : ℚ)) ((C : ℚ) - (C : ℚ) + (now - now) * R)
        = (0 : ℚ) := by
      rw [show now - now = (0 : ℚ) by ring, zero_mul, add_zero, sub_self]
      exact min_eq_right (by positivity)
    rw [hmin]
    rw [if_neg (by norm_num)]
  · rw [acquireStep_iterate C R now C le_rfl]
    unfold TokenBucket.acquire TokenBucket.refill
    dsimp only
    have hmin : min ((C : ℚ)) ((C : ℚ) - (C : ℚ) + (now - now) * R)
        = (0 : ℚ) := by
      rw [show now - now = (0 : ℚ) by ring, zero_mul, add_zero, sub_self]
      exact min_eq_right (by positivity)
    rw [hmin]
    rw [if_neg (by norm_num)]
    show (0 : ℚ) = (C : ℚ) - (C : ℚ)
    ring

/-- C5 witness: capacity 2, rate 1: the 2nd call succeeds, the 3rd fails. -/
theorem C5_witness :
    (((acquireStep 0)^[1] (TokenBucket.make 2 1 0)).acquire 0 1).1 = true ∧
    (((acquireStep 0)^[2] (TokenBucket.make 2 1 0)).acquire 0 1).1 = false :=
  ⟨(C5_token_bucket_saturation 2 1 0 (by norm_num) (by norm_num)).1 1
      (by norm_num),
   (C5_token_bucket_saturation 2 1 0 (by norm_num) (by norm_num)).2.1⟩

/-! ### C6 -/

theorem retryAux_all_fail {E T : Type} (fn : ℕ → Except E T) (e : ℕ → E)
    (hf : ∀ i, fn i = .error (e i)) :
    ∀ (r attempt : ℕ), retryAux fn attempt r = (r + 1, .error (e (attempt + r)))
  | 0, attempt => by simp [retryAux, hf attempt]
  | r + 1, attempt => by
    have ih := retryAux_all_fail fn e hf r (attempt + 1)
    have harith : attempt + 1 + r = attempt + (r + 1) := by omega
    simp only [retryAux, hf attempt, ih, harith]

/-- C6, confirmed: an operation failing on every attempt is invoked exactly
`max_retries + 1` times, and the error finally raised is the one produced by
the last attempt, unchanged. -/
theorem C6_retry_exhaustion {E T : Type} (fn : ℕ → Except E T)
    (max_retries : ℕ) (e : ℕ → E) (hf : ∀ i, fn i = .error (e i)) :
    retry_with_backoff fn max_retries =
      (max_retries + 1, .error (e max_retries)) := by
  unfold retry_with_backoff
  rw [retryAux_all_fail fn e hf max_retries 0, Nat.zero_add]

/-- C6 witness: `fn i = error i`, `max_retries = 2`: 3 invocations, final
error is the last attempt's error `2`. -/
theorem C6_witness :
    retry_with_backoff (fun i => (Except.error i : Except ℕ Unit)) 2 =
      (3, .error 2) :=
  C6_retry_exhaustion (fun i => (Except.error i : Except ℕ Unit)) 2
    (fun i => i) (fun _ => rfl)

/-! ### C7 -/

/-- C7, confirmed: with a uniform sample `u ∈ [-jitter, jitter]`, the delay
slept after the `k`-th failure (`k ≥ 1`, attempt index `k - 1`) is
`min(base_delay * 2^(k-1), max_delay) * (1 + u)`; it never exceeds
`max_delay * (1 + jitter)`, and whenever the max-delay clamp is inactive it
is at least `base_delay * 2^(k-1) * (1 - jitter)`. -/
theorem C7_backoff_bounds (base_delay max_delay jitter u : ℚ) (k : ℕ)
    (_hk : 1 ≤ k) (hb : 0 ≤ base_delay) (hm : 0 ≤ max_delay)
    (hu1 : -jitter ≤ u) (hu2 : u ≤ jitter) :
    backoff_delay base_delay max_delay jitter u (k - 1) =
      min (base_delay * 2 ^ (k - 1)) max_delay * (1 + u) ∧
    backoff_delay base_delay max_delay jitter u (k - 1) ≤
      max_delay * (1 + jitter) ∧
    (base_delay * 2 ^ (k - 1) ≤ max_delay →
      base_delay * 2 ^ (k - 1) * (1 - jitter) ≤
        backoff_delay base_delay max_delay jitter u (k - 1)) := by
  have hj : 0 ≤ jitter := by linarith
  have hpow : (0 : ℚ) ≤ base_delay * 2 ^ (k - 1) := by positivity
  have hmin0 : (0 : ℚ) ≤ min (base_delay * 2 ^ (k - 1)) max_delay :=
    le_min hpow hm
  refine ⟨rfl, ?_, ?_⟩
  · calc min (base_delay * 2 ^ (k - 1)) max_delay * (1 + u)
        ≤ min (base_delay * 2 ^ (k - 1)) max_delay * (1 + jitter) := by
          apply mul_le_mul_of_nonneg_left (by linarith) hmin0
      _ ≤ max_delay * (1 + jitter) := by
          apply mul_le_mul_of_nonneg_right (min_le_right _ _) (by linarith)
  · intro hcl
    unfold backoff_delay
    rw [min_eq_left hcl]
    apply mul_le_mul_of_nonneg_left (by linarith) hpow

/-- C7 witness: `base_delay = 1`, `max_delay = 30`, `jitter = 1/10`,
`u = 1/20`, third retry (`k = 3`). -/
theorem C7_witness :
    backoff_delay 1 30 (1 / 10) (1 / 20) 2 ≤ 30 * (1 + 1 / 10) ∧
    1 * 2 ^ 2 * (1 - 1 / 10) ≤ backoff_delay 1 30 (1 / 10) (1 / 20) 2 :=
  ⟨(C7_backoff_bounds 1 30 (1 / 10) (1 / 20) 3 (by norm_num) (by norm_num)
      (by norm_num) (by norm_num) (by norm_num)).2.1,
   (C7_backoff_bounds 1 30 (1 / 10) (1 / 20) 3 (by norm_num) (by norm_num)
      (by norm_num) (by norm_num) (by norm_num)).2.2 (by norm_num)⟩

/-! ### C8 -/

/-- C8, confirmed: for a source that was never registered,
`SourceRegistry.is_available` answers true without touching the registry,
`SourceRegistry.record_request` is a no-op, and `RateLimiter.acquire`
succeeds (unknown sources are not rate-limited). -/
theorem C8_fail_open (r : SourceRegistry) (rl : RateLimiter) (source : String)
    (now latency_ms : ℚ) (success : Bool)
    (hr : lookupAssoc r.sources source = none)
    (hrl : lookupAssoc rl.buckets source = none) :
    r.is_available source now = (true, r) ∧
    r.record_request source now latency_ms success = r ∧
    rl.acquire source now = (true, rl) := by
  unfold SourceRegistry.is_available SourceRegistry.record_request
    RateLimiter.acquire
  rw [hr, hrl]
  exact ⟨rfl, rfl, rfl⟩

/-- C8 witness: empty registry and limiter, source `"x"`. -/
theorem C8_witness :
    (SourceRegistry.mk []).is_available "x" 0 = (true, SourceRegistry.mk []) ∧
    (SourceRegistry.mk []).record_request "x" 0 5 true = SourceRegistry.mk [] ∧
    (RateLimiter.mk []).acquire "x" 0 = (true, RateLimiter.mk []) :=
  C8_fail_open (SourceRegistry.mk []) (RateLimiter.mk []) "x" 0 5 true rfl rfl

/-! ### C9 -/

/-- C9, corrected: `TokenBucket.wait_time` raises `ZeroDivisionError`
exactly when the refilled bucket holds fewer tokens than requested and the
refill rate is zero; in every other state it returns a value (and the
embedding types every other operation in the claim as a total function). -/
theorem C9_wait_time_raises_iff (b : TokenBucket) (now tokens : ℚ) :
    b.wait_time now tokens = .error .zeroDivisionError ↔
      (b.refill now).tokens < tokens ∧ b.refill_rate = 0 := by
  have hrr : (b.refill now).refill_rate = b.refill_rate := rfl
  unfold TokenBucket.wait_time
  dsimp only
  rw [hrr]
  split_ifs with h1 h2
  · simp [not_lt.mpr h1]
  · simp [not_le.mp h1, h2]
  · simp [h2]

/-- C9 counterexample: a source registered with `requests_per_minute = 0`
has an always-empty zero-rate bucket, and `wait_time` on it raises
`ZeroDivisionError` instead of returning a value. -/
theorem C9_counterexample :
    ((RateLimiter.mk []).register "s" 0 0).wait_time "s" 0 =
      .error .zeroDivisionError := by
  with_unfolding_all decide

/-! ### C10 -/

/-- C10, confirmed: reading health is not read-only.  For an OPEN breaker
whose recovery timeout has elapsed, `is_available` mutates it to HALF_OPEN
with `half_open_calls = 0`; the `is_available` call inside
`SourceMetrics.get_stats` and `SourceRegistry.is_available` performs the
same mutation; and two consecutive `get_health_summary` calls with no
intervening `record_request` report different circuit states
("open", then "half_open"). -/
theorem C10_health_read_mutates (m : SourceMetrics) (now : ℚ)
    (hst : m.circuit_breaker.state = .OPEN)
    (htm : m.circuit_breaker.recovery_timeout ≤
      now - m.circuit_breaker.last_failure_time) :
    ((m.circuit_breaker.is_available now).2.state = .HALF_OPEN ∧
     (m.circuit_breaker.is_available now).2.half_open_calls = 0) ∧
    (m.get_stats now).2.circuit_breaker.state = .HALF_OPEN ∧
    (∀ s : String, m.enabled = true →
      (((SourceRegistry.mk [(s, m)]).is_available s now).2.sources.map
        (fun p => p.2.circuit_breaker.state)) = [.HALF_OPEN]) ∧
    (∀ s : String,
      ((SourceRegistry.mk [(s, m)]).get_health_summary now).1.sources.map
        (·.circuit_state) = ["open"] ∧
      (((SourceRegistry.mk [(s, m)]).get_health_summary now).2.get_health_summary
        now).1.sources.map (·.circuit_state) = ["half_open"] ∧
      ("open" : String) ≠ "half_open") := by
  have hav : m.circuit_breaker.is_available now =
      (true, { m.circuit_breaker with state := .HALF_OPEN, half_open_calls := 0 }) := by
    unfold CircuitBreaker.is_available
    rw [hst]
    rw [if_pos htm]
  refine ⟨⟨by rw [hav], by rw [hav]⟩, ?_, ?_, ?_⟩
  · rw [get_stats_snd_breaker, hav]
  · intro s hen
    have hlook : lookupAssoc [(s, m)] s = some m := by
      simp [lookupAssoc, List.find?]
    simp only [SourceRegistry.is_available, hlook]
    simp [hen, setAssoc, List.find?, hav]
  · intro s
    refine ⟨?_, ?_, by decide⟩
    · show [(m.get_stats now).1.circuit_state] = ["open"]
      rw [get_stats_fst_circuit_state, hst]
      rfl
    · show [((m.get_stats now).2.get_stats now).1.circuit_state]
        = ["half_open"]
      rw [get_stats_fst_circuit_state, get_stats_snd_breaker, hav]
      rfl

/-- C10 witness: a registry holding one source whose breaker has been OPEN
since time 0 with timeout 30: at time 30, the first health summary reports
"open", the immediately repeated one reports "half_open". -/
theorem C10_witness :
    ((SourceRegistry.mk [("s", mC10)]).get_health_summary 30).1.sources.map
      (·.circuit_state) = ["open"] ∧
    (((SourceRegistry.mk [("s", mC10)]).get_health_summary 30).2.get_health_summary
      30).1.sources.map (·.circuit_state) = ["half_open"] :=
  ⟨((C10_health_read_mutates mC10 30 rfl
      (by with_unfolding_all decide)).2.2.2 "s").1,
   ((C10_health_read_mutates mC10 30 rfl
      (by with_unfolding_all decide)).2.2.2 "s").2.1⟩

end Resilience
